import Mathlib

/-
Shallow embedding of the `divrec` dividend-reconciliation engine.

Python `Decimal` values are modelled as `ℚ` (the code only ever performs
exact decimal arithmetic and *numeric* comparisons on them, which `ℚ`
reproduces exactly).  Python `int` is modelled as `ℤ`.  Fallible code
(functions that `raise`) is modelled with `Except String`, carrying the
exception's message string.
-/

namespace Divrec

/-- The three account-wrapper buckets (`CrestBucket` literal type in
`src/divrec/domain/models.py` and `src/divrec/domain/mapping.py`). -/
inductive CrestBucket
  | ISA
  | SIPP
  | GIA
deriving DecidableEq, Repr

/-- The string name of a bucket tag (used where the Python code
interpolates the bucket literal into a string). -/
def CrestBucket.name : CrestBucket → String
  | .ISA => "ISA"
  | .SIPP => "SIPP"
  | .GIA => "GIA"

/-- A total map keyed by the three buckets; models the Python dicts whose
keys are exactly the bucket tags. -/
structure BucketMap (α : Type) where
  isa : α
  sipp : α
  gia : α
deriving DecidableEq, Repr

def BucketMap.get {α : Type} (m : BucketMap α) : CrestBucket → α
  | .ISA => m.isa
  | .SIPP => m.sipp
  | .GIA => m.gia

def BucketMap.set {α : Type} (m : BucketMap α) : CrestBucket → α → BucketMap α
  | .ISA, v => { m with isa := v }
  | .SIPP, v => { m with sipp := v }
  | .GIA, v => { m with gia := v }

/-- `InternalHolding` dataclass (`src/divrec/domain/models.py`, lines 10-18).
Note that the record *does* carry an optional stored `crest_bucket` field,
defaulting to `None`. -/
structure InternalHolding where
  isin : String
  record_date : String
  client_number : String
  product_code : Int
  account_number : String
  shares : Int
  crest_bucket : Option CrestBucket := none
deriving DecidableEq, Repr

/-- `CrestBucketSnapshot` dataclass (`src/divrec/domain/models.py`,
lines 21-31): one authoritative CREST row at (isin, bucket) grain. -/
structure CrestBucketSnapshot where
  isin : String
  record_date : String
  pay_date : String
  crest_bucket : CrestBucket
  shares : Int
  dividend_per_share : ℚ
  cash_credited : ℚ
deriving DecidableEq, Repr

/-- `CreditLine` dataclass (`src/divrec/domain/models.py`, lines 34-47).
`line_type` is a plain string in the source ("CLIENT" or
"HOUSE_ROUNDING"), so it is a `String` here as well. -/
structure CreditLine where
  run_id : String
  isin : String
  record_date : String
  pay_date : String
  client_number : String
  product_code : Int
  account_number : String
  crest_bucket : CrestBucket
  shares : Int
  dividend_per_share : ℚ
  cash_credited : ℚ
  line_type : String
deriving DecidableEq, Repr

/-- `BreakRow` dataclass (`src/divrec/recon/breaks.py`): `crest_bucket`
is `str | None` in the source. -/
structure BreakRow where
  run_id : String
  isin : String
  crest_bucket : Option String
  break_type : String
  details : String
  crest_value : String
  internal_value : String
deriving DecidableEq, Repr

/-- `BucketReconResult` dataclass (`src/divrec/domain/models.py`,
lines 78-89). -/
structure BucketReconResult where
  crest_bucket : CrestBucket
  crest_shares : Int
  internal_shares : Int
  shares_diff : Int
  crest_cash : ℚ
  internal_cash_pre_residual : ℚ
  residual_to_house : ℚ
  internal_cash_post_residual : ℚ
  cash_diff_post_residual : ℚ
  pass_bucket : Bool
deriving DecidableEq, Repr

/-- `RunReconResult` dataclass (`src/divrec/domain/models.py`,
lines 92-100). -/
structure RunReconResult where
  run_id : String
  isin : String
  record_date : String
  pay_date : String
  bucket_results : List BucketReconResult
  pass_run : Bool
  fail_reasons : List String
deriving DecidableEq, Repr

/-- Python `f"\x7bn:02d\x7d"` formatting of an integer: left-pads a single
digit with a zero, leaves everything else as `toString`. -/
def format02 (n : Int) : String :=
  if 0 ≤ n ∧ n < 10 then "0" ++ toString n else toString n

namespace Mapping

/-- `ALLOWED_PRODUCT_CODES` (`src/divrec/domain/mapping.py`, line 5). -/
def ALLOWED_PRODUCT_CODES : List Int := [22, 24, 25, 70, 71, 97]

/-- `PRODUCT_TO_BUCKET` lookup (`src/divrec/domain/mapping.py`,
lines 7-14), as the finite lookup it denotes. -/
def PRODUCT_TO_BUCKET (code : Int) : Option CrestBucket :=
  if code = 22 then some .ISA
  else if code = 24 then some .ISA
  else if code = 25 then some .ISA
  else if code = 70 then some .SIPP
  else if code = 71 then some .SIPP
  else if code = 97 then some .GIA
  else none

/-- `HOUSE_CLIENT_NUMBER` (`src/divrec/domain/mapping.py`, line 16). -/
def HOUSE_CLIENT_NUMBER : String := "55555555"

/-- `HOUSE_PRODUCT_BY_BUCKET` (`src/divrec/domain/mapping.py`,
lines 18-22). -/
def HOUSE_PRODUCT_BY_BUCKET : CrestBucket → Int
  | .ISA => 22
  | .SIPP => 70
  | .GIA => 97

/-- `bucket_for_product` (`src/divrec/domain/mapping.py`, lines 25-29):
raises `ValueError("UNKNOWN_PRODUCT_CODE")` on a code outside the table. -/
def bucket_for_product (product_code : Int) : Except String CrestBucket :=
  match PRODUCT_TO_BUCKET product_code with
  | some b => .ok b
  | none => .error "UNKNOWN_PRODUCT_CODE"

/-- `make_account_number` as defined in `src/divrec/domain/mapping.py`,
lines 32-33: client number directly concatenated with the two-digit
zero-padded product code (no separator).  This is the version imported by
`validate_internal.py`. -/
def make_account_number (client_number : String) (product_code : Int) : String :=
  client_number ++ format02 product_code

end Mapping

namespace Models

/-- `make_account_number` as defined in `src/divrec/domain/models.py`,
lines 50-55: client number, a hyphen, then the two-digit zero-padded
product code.  This is the version imported by `recon/reconcile.py`. -/
def make_account_number (client_number : String) (product_code : Int) : String :=
  client_number ++ "-" ++ format02 product_code

end Models

/-- `round_half_up` (`src/divrec/calc/rounding.py`, lines 6-21): quantize
to `places` fractional digits with `decimal.ROUND_HALF_UP`, i.e. round to
the nearest multiple of `10^(-places)` with ties going away from zero.
(The `isinstance` type guards of the source are enforced by the Lean
types.) -/
def round_half_up (value : ℚ) (places : Int) : ℚ :=
  let s : ℚ := (10 : ℚ) ^ places
  if value < 0 then -(((⌊(-value) * s + 1 / 2⌋ : Int) : ℚ) / s)
  else ((⌊value * s + 1 / 2⌋ : Int) : ℚ) / s

/-- Loop body accumulator of `aggregate_internal_shares_by_bucket`
(`src/divrec/domain/models.py`, lines 58-64): `totals[h.crest_bucket] +=
int(h.shares)`.  Indexing the three-key dict with a holding whose stored
`crest_bucket` is `None` raises a `KeyError`. -/
def aggSharesGo (m : BucketMap Int) : List InternalHolding → Except String (BucketMap Int)
  | [] => .ok m
  | h :: t =>
    match h.crest_bucket with
    | none => .error "KeyError"
    | some b => aggSharesGo (m.set b (m.get b + h.shares)) t

/-- `aggregate_internal_shares_by_bucket` (`src/divrec/domain/models.py`,
lines 58-64) — the share aggregation imported and used by
`recon/reconcile.py` line 45.  It indexes by the *stored* `crest_bucket`
field of each holding. -/
def aggregate_internal_shares_by_bucket (internal_holdings : List InternalHolding) :
    Except String (BucketMap Int) :=
  aggSharesGo ⟨0, 0, 0⟩ internal_holdings

/-- Loop body of `aggregate_cash_by_bucket` (`src/divrec/domain/models.py`,
lines 67-75): `totals[ln.crest_bucket] = totals[ln.crest_bucket] +
ln.cash_credited`, over *all* supplied lines. -/
def aggCashGo (m : BucketMap ℚ) : List CreditLine → BucketMap ℚ
  | [] => m
  | ln :: t => aggCashGo (m.set ln.crest_bucket (m.get ln.crest_bucket + ln.cash_credited)) t

/-- `aggregate_cash_by_bucket` (`src/divrec/domain/models.py`,
lines 67-75) — the cash aggregation imported and used by
`recon/reconcile.py` line 46.  (The copy in `src/divrec/calc/aggregation.py`
lines 18-22 has the same body.)  Note: no filter on `line_type`. -/
def aggregate_cash_by_bucket (client_lines : List CreditLine) : BucketMap ℚ :=
  aggCashGo ⟨0, 0, 0⟩ client_lines

namespace Calc

/-- Loop body of the *derived-bucket* share aggregation in
`src/divrec/calc/aggregation.py`, lines 11-15: buckets come from
`bucket_for_product(h.product_code)` (which can raise
`UNKNOWN_PRODUCT_CODE`).  This version is NOT the one `reconcile_run`
imports. -/
def aggSharesDerivedGo (m : BucketMap Int) : List InternalHolding → Except String (BucketMap Int)
  | [] => .ok m
  | h :: t =>
    match Mapping.bucket_for_product h.product_code with
    | .error e => .error e
    | .ok b => aggSharesDerivedGo (m.set b (m.get b + h.shares)) t

/-- `aggregate_internal_shares_by_bucket` from
`src/divrec/calc/aggregation.py`, lines 11-15 (derives the bucket from
`product_code`; unused by `reconcile_run`). -/
def aggregate_internal_shares_by_bucket (holdings : List InternalHolding) :
    Except String (BucketMap Int) :=
  aggSharesDerivedGo ⟨0, 0, 0⟩ holdings

end Calc

/-- Loop body of `validate_internal_holdings`
(`src/divrec/validate/validate_internal.py`, lines 10-31): first violation
aborts with a categorized `ValueError`; the `seen_keys` set is threaded
through.  Account numbers are checked against `Mapping.make_account_number`
(that module imports `make_account_number` from `divrec.domain.mapping`). -/
def validateInternalGo (seen : List (String × String × Int)) :
    List InternalHolding → Except String Unit
  | [] => .ok ()
  | h :: t =>
    if !(h.client_number.length == 8 && h.client_number.toList.all Char.isDigit) then
      .error "BAD_CLIENT_NUMBER"
    else if !(Mapping.ALLOWED_PRODUCT_CODES.contains h.product_code) then
      .error "UNKNOWN_PRODUCT_CODE"
    else if h.account_number ≠ Mapping.make_account_number h.client_number h.product_code then
      .error "BAD_ACCOUNT_NUMBER"
    else if h.shares < 1 then
      .error "BAD_SHARES"
    else if (h.isin, h.client_number, h.product_code) ∈ seen then
      .error "DUPLICATE_INTERNAL_KEY"
    else
      validateInternalGo ((h.isin, h.client_number, h.product_code) :: seen) t

/-- `validate_internal_holdings` (`src/divrec/validate/validate_internal.py`). -/
def validate_internal_holdings (holdings : List InternalHolding) : Except String Unit :=
  validateInternalGo [] holdings

/-- Loop body of `validate_crest_snapshot`
(`src/divrec/validate/validate_crest.py`, lines 21-37).  The
`crest_bucket not in _ALLOWED_BUCKETS` test of the source is unsatisfiable
here because the field is typed as `CrestBucket`. -/
def validateCrestGo (seen : List (String × CrestBucket)) :
    List CrestBucketSnapshot → Except String Unit
  | [] => .ok ()
  | r :: t =>
    if (r.isin, r.crest_bucket) ∈ seen then .error "DUPLICATE_BUCKET_ROW"
    else if r.shares < 0 then .error "BAD_SHARES"
    else if r.dividend_per_share < 0 then .error "BAD_RATE"
    else if r.cash_credited < 0 then .error "BAD_CASH"
    else validateCrestGo ((r.isin, r.crest_bucket) :: seen) t

/-- `validate_crest_snapshot` (`src/divrec/validate/validate_crest.py`,
lines 11-47), check for check in source order.  Note the first check
raises `ValueError("MULTI_ISIN_CREST")` — with the `_CREST` suffix — when
more than one distinct isin appears across the rows. -/
def validate_crest_snapshot (rows : List CrestBucketSnapshot) : Except String Unit :=
  if 1 < ((rows.map (fun r => r.isin)).dedup).length then .error "MULTI_ISIN_CREST"
  else
    match validateCrestGo [] rows with
    | .error e => .error e
    | .ok _ =>
      if !(rows.any (fun r => decide (r.crest_bucket = .ISA)) &&
           rows.any (fun r => decide (r.crest_bucket = .SIPP)) &&
           rows.any (fun r => decide (r.crest_bucket = .GIA))) then
        .error "MISSING_BUCKET"
      else
        match rows with
        | [] => .ok ()
        | r0 :: rest =>
          if rest.any (fun r => decide (r.dividend_per_share ≠ r0.dividend_per_share)) then
            .error "RATE_MISMATCH_ACROSS_BUCKETS"
          else .ok ()

/-- Loop body of `compute_client_credit_lines`
(`src/divrec/calc/entitlements.py`, lines 20-39): one CLIENT line per
holding in input order, `cash_credited = round_half_up(shares * rate, 2)`,
bucket derived via `bucket_for_product` (which can raise
`UNKNOWN_PRODUCT_CODE`). -/
def computeLinesGo (run_id isin record_date pay_date : String) (dividend_per_share : ℚ) :
    List InternalHolding → Except String (List CreditLine)
  | [] => .ok []
  | h :: t =>
    match Mapping.bucket_for_product h.product_code with
    | .error e => .error e
    | .ok b =>
      match computeLinesGo run_id isin record_date pay_date dividend_per_share t with
      | .error e => .error e
      | .ok rest =>
        .ok (⟨run_id, isin, record_date, pay_date, h.client_number, h.product_code,
              h.account_number, b, h.shares, dividend_per_share,
              round_half_up ((h.shares : ℚ) * dividend_per_share) 2, "CLIENT"⟩ :: rest)

/-- `compute_client_credit_lines` (`src/divrec/calc/entitlements.py`). -/
def compute_client_credit_lines (holdings : List InternalHolding)
    (run_id isin record_date pay_date : String) (dividend_per_share : ℚ) :
    Except String (List CreditLine) :=
  computeLinesGo run_id isin record_date pay_date dividend_per_share holdings

/-- `HOUSE_CLIENT` (`src/divrec/recon/reconcile.py`, line 20). -/
def HOUSE_CLIENT : String := "55555555"

/-- `HOUSE_PRODUCT_BY_BUCKET` (`src/divrec/recon/reconcile.py`, line 21). -/
def HOUSE_PRODUCT_BY_BUCKET : CrestBucket → Int
  | .ISA => 22
  | .SIPP => 70
  | .GIA => 97

/-- The dict comprehension `crest_by_bucket = \x7br.crest_bucket: r for r in
crest_rows\x7d` of `reconcile_run` (`src/divrec/recon/reconcile.py`,
line 40): later rows overwrite earlier ones at the same bucket key. -/
def crestByBucket (crest_rows : List CrestBucketSnapshot) :
    BucketMap (Option CrestBucketSnapshot) :=
  crest_rows.foldl (fun m r => m.set r.crest_bucket (some r)) ⟨none, none, none⟩

/-- The per-bucket values produced by one iteration of the reconciliation
loop: the `BucketReconResult`, the `BreakRow`s appended, and the
`fail_reasons` strings appended. -/
structure BucketStepOut where
  res : BucketReconResult
  step_breaks : List BreakRow
  reasons : List String
deriving DecidableEq, Repr

/-- One iteration of the `for bucket in ("ISA", "SIPP", "GIA")` loop of
`reconcile_run` (`src/divrec/recon/reconcile.py`, lines 52-108), given the
bucket's CREST row and the aggregated internal shares/cash for that
bucket. -/
def bucketStep (run_id isin : String) (bucket : CrestBucket)
    (crest_row : CrestBucketSnapshot) (int_shares : Int) (int_cash_pre : ℚ)
    (residual_tolerance : ℚ) : BucketStepOut :=
  let crest_shares := crest_row.shares
  let crest_cash := crest_row.cash_credited
  let shares_diff := int_shares - crest_shares
  let residual := crest_cash - int_cash_pre
  let eligible : Bool := decide (|residual| ≤ residual_tolerance)
  let int_cash_post := int_cash_pre + (if eligible then residual else 0)
  let cash_diff_post := crest_cash - int_cash_post
  let pass_bucket : Bool := decide (int_shares = crest_shares) && eligible
  let sharesBreaks : List BreakRow :=
    if int_shares = crest_shares then []
    else [⟨run_id, isin, some bucket.name, "SHARES_MISMATCH",
           "shares_diff=" ++ toString shares_diff,
           toString crest_shares, toString int_shares⟩]
  let sharesReasons : List String :=
    if int_shares = crest_shares then [] else ["SHARES_MISMATCH:" ++ bucket.name]
  let residBreaks : List BreakRow :=
    if eligible then []
    else [⟨run_id, isin, some bucket.name, "RESIDUAL_EXCEEDS_TOLERANCE",
           "residual=" ++ toString residual ++ " tolerance=" ++ toString residual_tolerance,
           toString crest_cash, toString int_cash_pre⟩]
  let residReasons : List String :=
    if eligible then [] else ["RESIDUAL_EXCEEDS_TOLERANCE:" ++ bucket.name]
  ⟨⟨bucket, crest_shares, int_shares, shares_diff, crest_cash, int_cash_pre,
    residual, int_cash_post, cash_diff_post, pass_bucket⟩,
   sharesBreaks ++ residBreaks, sharesReasons ++ residReasons⟩

/-- The settlement step for one bucket result
(`src/divrec/recon/reconcile.py`, lines 125-144): skip when the recorded
residual equals `Decimal("0.00")` (numeric comparison), otherwise emit the
single HOUSE_ROUNDING line, whose rate is copied from the bucket's CREST
row and whose account number is built with the `models.py` version of
`make_account_number`. -/
def houseOpt (run_id isin record_date pay_date : String)
    (crest_row : CrestBucketSnapshot) (br : BucketReconResult) : List CreditLine :=
  if br.residual_to_house = 0 then []
  else
    [⟨run_id, isin, record_date, pay_date, HOUSE_CLIENT,
      HOUSE_PRODUCT_BY_BUCKET br.crest_bucket,
      Models.make_account_number HOUSE_CLIENT (HOUSE_PRODUCT_BY_BUCKET br.crest_bucket),
      br.crest_bucket, 0, crest_row.dividend_per_share, br.residual_to_house,
      "HOUSE_ROUNDING"⟩]

/-- `reconcile_run` (`src/divrec/recon/reconcile.py`, lines 24-147).
Source control flow, in order: build `crest_by_bucket` and raise
`MISSING_BUCKET` unless all three buckets are present; aggregate internal
shares (can raise `KeyError`) and cash; run the per-bucket loop over
(ISA, SIPP, GIA); if any bucket failed return `(recon, [], breaks)`,
otherwise append the house rounding lines to the client lines and return
`(recon, final_credit_lines, [])`. -/
def reconcile_run (run_id isin record_date pay_date : String)
    (internal_holdings : List InternalHolding)
    (crest_rows : List CrestBucketSnapshot)
    (client_lines : List CreditLine)
    (residual_tolerance : ℚ) :
    Except String (RunReconResult × List CreditLine × List BreakRow) :=
  match (crestByBucket crest_rows).isa, (crestByBucket crest_rows).sipp,
        (crestByBucket crest_rows).gia with
  | some rowISA, some rowSIPP, some rowGIA =>
    match aggregate_internal_shares_by_bucket internal_holdings with
    | .error e => .error e
    | .ok internal_shares =>
      let internal_cash_pre := aggregate_cash_by_bucket client_lines
      let s1 := bucketStep run_id isin .ISA rowISA (internal_shares.get .ISA)
        (internal_cash_pre.get .ISA) residual_tolerance
      let s2 := bucketStep run_id isin .SIPP rowSIPP (internal_shares.get .SIPP)
        (internal_cash_pre.get .SIPP) residual_tolerance
      let s3 := bucketStep run_id isin .GIA rowGIA (internal_shares.get .GIA)
        (internal_cash_pre.get .GIA) residual_tolerance
      let bucket_results := [s1.res, s2.res, s3.res]
      let all_breaks := s1.step_breaks ++ s2.step_breaks ++ s3.step_breaks
      let fail_reasons := s1.reasons ++ s2.reasons ++ s3.reasons
      let pass_run := s1.res.pass_bucket && s2.res.pass_bucket && s3.res.pass_bucket
      let recon : RunReconResult :=
        ⟨run_id, isin, record_date, pay_date, bucket_results, pass_run, fail_reasons⟩
      if pass_run then
        let house_lines :=
          houseOpt run_id isin record_date pay_date rowISA s1.res ++
          houseOpt run_id isin record_date pay_date rowSIPP s2.res ++
          houseOpt run_id isin record_date pay_date rowGIA s3.res
        .ok (recon, client_lines ++ house_lines, [])
      else
        .ok (recon, [], all_breaks)
  | _, _, _ => .error "MISSING_BUCKET"

/-- Sum of `cash_credited` over the lines of one bucket (no filter on
`line_type`); spec-side description of a per-bucket cash total. -/
def sumCashBucket (b : CrestBucket) (ls : List CreditLine) : ℚ :=
  ((ls.filter fun ln => decide (ln.crest_bucket = b)).map fun ln => ln.cash_credited).sum

/-- Sum of `shares` over the holdings whose *stored* `crest_bucket` field
is `some b`; spec-side description of a per-bucket share total. -/
def sumSharesBucket (b : CrestBucket) (hs : List InternalHolding) : Int :=
  ((hs.filter fun h => decide (h.crest_bucket = some b)).map fun h => h.shares).sum

/-- Sum of `cash_credited` over the lines of a given `line_type` in a
given bucket; spec-side description used to state the tie-out property. -/
def cashOfKindInBucket (k : String) (b : CrestBucket) (ls : List CreditLine) : ℚ :=
  ((ls.filter fun ln => decide (ln.line_type = k ∧ ln.crest_bucket = b)).map
    fun ln => ln.cash_credited).sum

/-- Placeholder triple used as the default for `Except.toOption.getD`
projections of concrete runs. -/
def junkTriple : RunReconResult × List CreditLine × List BreakRow :=
  (⟨"", "", "", "", [], false, []⟩, [], [])

/-- Concrete CREST snapshot for a passing run: ISA cash is 0.01 above the
internal client total, SIPP and GIA tie out exactly. -/
def exRows : List CrestBucketSnapshot :=
  [⟨"GB1", "2026-01-01", "2026-01-15", .ISA, 100, 1/10, 1001/100⟩,
   ⟨"GB1", "2026-01-01", "2026-01-15", .SIPP, 200, 1/10, 20⟩,
   ⟨"GB1", "2026-01-01", "2026-01-15", .GIA, 300, 1/10, 30⟩]

/-- Concrete holdings matching `exRows` share counts. -/
def exHoldings : List InternalHolding :=
  [⟨"GB1", "2026-01-01", "11111111", 22, "1111111122", 100, some .ISA⟩,
   ⟨"GB1", "2026-01-01", "22222222", 70, "2222222270", 200, some .SIPP⟩,
   ⟨"GB1", "2026-01-01", "33333333", 97, "3333333397", 300, some .GIA⟩]

/-- Concrete CLIENT lines matching `exHoldings` at rate 0.10. -/
def exLines : List CreditLine :=
  [⟨"R1", "GB1", "2026-01-01", "2026-01-15", "11111111", 22, "1111111122", .ISA, 100,
    1/10, 10, "CLIENT"⟩,
   ⟨"R1", "GB1", "2026-01-01", "2026-01-15", "22222222", 70, "2222222270", .SIPP, 200,
    1/10, 20, "CLIENT"⟩,
   ⟨"R1", "GB1", "2026-01-01", "2026-01-15", "33333333", 97, "3333333397", .GIA, 300,
    1/10, 30, "CLIENT"⟩]

/-- The (passing) result triple of the example run. -/
def exOut : RunReconResult × List CreditLine × List BreakRow :=
  (reconcile_run "R1" "GB1" "2026-01-01" "2026-01-15" exHoldings exRows exLines
    (1/100)).toOption.getD junkTriple

/-- The ISA bucket result of the example run: residual exactly 0.01 (the
tolerance), shares matching, bucket passed. -/
def exResISA : BucketReconResult :=
  ⟨.ISA, 100, 100, 0, 1001/100, 10, 1/100, 1001/100, 0, true⟩

/-- CREST snapshot for a failing run: GIA cash is 0.02 above the internal
total, exceeding the 0.01 tolerance. -/
def failRows : List CrestBucketSnapshot :=
  [⟨"GB1", "2026-01-01", "2026-01-15", .ISA, 100, 1/10, 10⟩,
   ⟨"GB1", "2026-01-01", "2026-01-15", .SIPP, 200, 1/10, 20⟩,
   ⟨"GB1", "2026-01-01", "2026-01-15", .GIA, 300, 1/10, 1501/50⟩]

/-- The (failing) result triple of the `failRows` run. -/
def exFailOut : RunReconResult × List CreditLine × List BreakRow :=
  (reconcile_run "R2" "GB1" "2026-01-01" "2026-01-15" exHoldings failRows exLines
    (1/100)).toOption.getD junkTriple

/-- Single ISA holding used for the declared-rate counterexample. -/
def c4Holdings : List InternalHolding :=
  [⟨"GB4", "2026-01-01", "11111111", 22, "1111111122", 100, some .ISA⟩]

/-- CREST rows whose rate (0.20) differs from the declared rate (0.10)
used to compute the client lines; cash figures still reconcile. -/
def c4Rows : List CrestBucketSnapshot :=
  [⟨"GB4", "2026-01-01", "2026-01-15", .ISA, 100, 1/5, 1001/100⟩,
   ⟨"GB4", "2026-01-01", "2026-01-15", .SIPP, 0, 1/5, 0⟩,
   ⟨"GB4", "2026-01-01", "2026-01-15", .GIA, 0, 1/5, 0⟩]

/-- The client lines `compute_client_credit_lines` produces from
`c4Holdings` at declared rate 0.10. -/
def c4Lines : List CreditLine :=
  [⟨"R4", "GB4", "2026-01-01", "2026-01-15", "11111111", 22, "1111111122", .ISA, 100,
    1/10, 10, "CLIENT"⟩]

/-- The HOUSE_ROUNDING line `reconcile_run` emits on the `c4Rows` run: its
rate is the CREST row's 0.20, not the declared 0.10. -/
def c4HouseLine : CreditLine :=
  ⟨"R4", "GB4", "2026-01-01", "2026-01-15", "55555555", 22, "55555555-22", .ISA, 0,
   1/5, 1/100, "HOUSE_ROUNDING"⟩

/-- The (passing) result triple of the `c4Rows` run. -/
def c4Out : RunReconResult × List CreditLine × List BreakRow :=
  (reconcile_run "R4" "GB4" "2026-01-01" "2026-01-15" c4Holdings c4Rows c4Lines
    (1/100)).toOption.getD junkTriple

/-- A holding whose `account_number` carries the hyphenated format of
`Models.make_account_number` (the format `reconcile_run` itself puts on
house lines). -/
def c5Holding : InternalHolding :=
  ⟨"GB5", "2026-01-01", "55555555", 22, Models.make_account_number "55555555" 22, 100, none⟩

/-- A HOUSE_ROUNDING-kind line fed to the cash aggregation. -/
def c6HouseLine : CreditLine :=
  ⟨"R6", "GB6", "2026-01-01", "2026-01-15", "55555555", 22, "5555555522", .ISA, 0,
   1/10, 5, "HOUSE_ROUNDING"⟩

/-- A holding whose stored `crest_bucket` (GIA) disagrees with the bucket
derived from its `product_code` (22 → ISA). -/
def c7Holding : InternalHolding :=
  ⟨"GB7", "2026-01-01", "44444444", 22, "4444444422", 5, some .GIA⟩

/-- The aggregated internal share totals of the example holdings. -/
def c7Map : BucketMap Int :=
  (aggregate_internal_shares_by_bucket exHoldings).toOption.getD ⟨0, 0, 0⟩

/-- A holding whose stored `crest_bucket` is `None` (the dataclass
default, which `validate_internal_holdings` never fills in). -/
def c8Holding : InternalHolding :=
  ⟨"GB1", "2026-01-01", "11111111", 22, "1111111122", 100, none⟩

/-- Two snapshot rows with distinct isins. -/
def c10Rows : List CrestBucketSnapshot :=
  [⟨"GB10A", "2026-01-01", "2026-01-15", .ISA, 0, 1/10, 0⟩,
   ⟨"GB10B", "2026-01-01", "2026-01-15", .SIPP, 0, 1/10, 0⟩]

theorem BucketMap.get_set {α : Type} (m : BucketMap α) (b b' : CrestBucket) (v : α) :
    (m.set b v).get b' = if b' = b then v else m.get b' := by
  cases b <;> cases b' <;> simp [BucketMap.get, BucketMap.set]

theorem sumCashBucket_cons (b : CrestBucket) (ln : CreditLine) (t : List CreditLine) :
    sumCashBucket b (ln :: t) =
      (if ln.crest_bucket = b then ln.cash_credited else 0) + sumCashBucket b t := by
  by_cases h : ln.crest_bucket = b <;> simp [sumCashBucket, h]

theorem aggCashGo_get (ls : List CreditLine) (m : BucketMap ℚ) (b : CrestBucket) :
    (aggCashGo m ls).get b = m.get b + sumCashBucket b ls := by
  induction ls generalizing m with
  | nil => simp [aggCashGo, sumCashBucket]
  | cons ln t ih =>
    rw [aggCashGo, ih, sumCashBucket_cons, BucketMap.get_set]
    by_cases h : ln.crest_bucket = b
    · simp [h]; ring
    · have h2 : b ≠ ln.crest_bucket := fun hh => h hh.symm
      simp [h, h2]

theorem aggregate_cash_get (ls : List CreditLine) (b : CrestBucket) :
    (aggregate_cash_by_bucket ls).get b = sumCashBucket b ls := by
  rw [aggregate_cash_by_bucket, aggCashGo_get]
  cases b <;> simp [BucketMap.get]

theorem sumSharesBucket_cons (b : CrestBucket) (h : InternalHolding) (t : List InternalHolding) :
    sumSharesBucket b (h :: t) =
      (if h.crest_bucket = some b then h.shares else 0) + sumSharesBucket b t := by
  by_cases hb : h.crest_bucket = some b <;> simp [sumSharesBucket, hb]

theorem aggSharesGo_error_iff (hs : List InternalHolding) (m : BucketMap Int) :
    aggSharesGo m hs = .error "KeyError" ↔ ∃ h ∈ hs, h.crest_bucket = none := by
  induction hs generalizing m with
  | nil => simp [aggSharesGo]
  | cons h t ih =>
    cases hb : h.crest_bucket with
    | none => simp [aggSharesGo, hb]
    | some b =>
      rw [aggSharesGo, hb]
      simp only [List.mem_cons]
      constructor
      · intro he
        rcases (ih _).mp he with ⟨h2, hm, hn⟩
        exact ⟨h2, Or.inr hm, hn⟩
      · rintro ⟨h2, hm | hm, hn⟩
        · subst hm; rw [hb] at hn; cases hn
        · exact (ih _).mpr ⟨h2, hm, hn⟩

theorem aggSharesGo_ok_get (hs : List InternalHolding) (m m2 : BucketMap Int)
    (hok : aggSharesGo m hs = .ok m2) (b : CrestBucket) :
    m2.get b = m.get b + sumSharesBucket b hs := by
  induction hs generalizing m with
  | nil =>
    simp only [aggSharesGo, Except.ok.injEq] at hok
    subst hok
    simp [sumSharesBucket]
  | cons h t ih =>
    cases hb : h.crest_bucket with
    | none => rw [aggSharesGo, hb] at hok; cases hok
    | some b0 =>
      rw [aggSharesGo, hb] at hok
      rw [ih _ hok, sumSharesBucket_cons, BucketMap.get_set, hb]
      by_cases hbb : b = b0
      · subst hbb; simp; ring
      · have h2 : some b0 ≠ some b := by
          intro hx
          exact hbb (Option.some.inj hx).symm
        simp [hbb, h2]

theorem aggregate_shares_error_iff (hs : List InternalHolding) :
    aggregate_internal_shares_by_bucket hs = .error "KeyError" ↔
      ∃ h ∈ hs, h.crest_bucket = none := by
  rw [aggregate_internal_shares_by_bucket]
  exact aggSharesGo_error_iff hs _

theorem aggregate_shares_ok_get (hs : List InternalHolding) (m : BucketMap Int)
    (hok : aggregate_internal_shares_by_bucket hs = .ok m) (b : CrestBucket) :
    m.get b = sumSharesBucket b hs := by
  rw [aggregate_internal_shares_by_bucket] at hok
  rw [aggSharesGo_ok_get _ _ _ hok]
  cases b <;> simp [BucketMap.get]



theorem reconcile_run_ok_elim (rid i rd pd : String) (hs : List InternalHolding)
    (rows : List CrestBucketSnapshot) (cls : List CreditLine) (tol : ℚ)
    (out : RunReconResult × List CreditLine × List BreakRow)
    (hok : reconcile_run rid i rd pd hs rows cls tol = .ok out) :
    ∃ rI rS rG ms,
      (crestByBucket rows).isa = some rI ∧
      (crestByBucket rows).sipp = some rS ∧
      (crestByBucket rows).gia = some rG ∧
      aggregate_internal_shares_by_bucket hs = .ok ms ∧
      (let pre := aggregate_cash_by_bucket cls
       let s1 := bucketStep rid i .ISA rI (ms.get .ISA) (pre.get .ISA) tol
       let s2 := bucketStep rid i .SIPP rS (ms.get .SIPP) (pre.get .SIPP) tol
       let s3 := bucketStep rid i .GIA rG (ms.get .GIA) (pre.get .GIA) tol
       let pr := s1.res.pass_bucket && s2.res.pass_bucket && s3.res.pass_bucket
       out = (⟨rid, i, rd, pd, [s1.res, s2.res, s3.res], pr,
               s1.reasons ++ s2.reasons ++ s3.reasons⟩,
              if pr then
                cls ++ (houseOpt rid i rd pd rI s1.res ++ houseOpt rid i rd pd rS s2.res ++
                  houseOpt rid i rd pd rG s3.res)
              else [],
              if pr then [] else s1.step_breaks ++ s2.step_breaks ++ s3.step_breaks)) := by
  unfold reconcile_run at hok
  rcases hA : (crestByBucket rows).isa with _ | rI
  · rw [hA] at hok; simp at hok
  rcases hB : (crestByBucket rows).sipp with _ | rS
  · rw [hA, hB] at hok; simp at hok
  rcases hC : (crestByBucket rows).gia with _ | rG
  · rw [hA, hB, hC] at hok; simp at hok
  rw [hA, hB, hC] at hok
  cases hagg : aggregate_internal_shares_by_bucket hs with
  | error e => rw [hagg] at hok; simp at hok
  | ok ms =>
    rw [hagg] at hok
    simp only [] at hok
    refine ⟨rI, rS, rG, ms, rfl, rfl, rfl, rfl, ?_⟩
    simp only []
    split at hok
    case _ hpr =>
      simp only [Except.ok.injEq] at hok
      rw [← hok]
      simp [hpr]
    case _ hpr =>
      simp only [Except.ok.injEq] at hok
      rw [← hok]
      simp [hpr]

theorem bucketStep_res_crest_bucket (rid i : String) (b : CrestBucket)
    (row : CrestBucketSnapshot) (s : Int) (c tol : ℚ) :
    (bucketStep rid i b row s c tol).res.crest_bucket = b := rfl

theorem bucketStep_res_residual (rid i : String) (b : CrestBucket)
    (row : CrestBucketSnapshot) (s : Int) (c tol : ℚ) :
    (bucketStep rid i b row s c tol).res.residual_to_house = row.cash_credited - c := rfl

theorem bucketStep_res_pass_iff (rid i : String) (b : CrestBucket)
    (row : CrestBucketSnapshot) (s : Int) (c tol : ℚ) :
    (bucketStep rid i b row s c tol).res.pass_bucket = true ↔
      (s = row.shares ∧ |row.cash_credited - c| ≤ tol) := by
  simp [bucketStep]

theorem bucketStep_res_post (rid i : String) (b : CrestBucket)
    (row : CrestBucketSnapshot) (s : Int) (c tol : ℚ) :
    (bucketStep rid i b row s c tol).res.internal_cash_post_residual =
      (if |row.cash_credited - c| ≤ tol then c + (row.cash_credited - c) else c) := by
  by_cases h : |row.cash_credited - c| ≤ tol <;> simp [bucketStep, h]

theorem cashOfKindInBucket_append (k : String) (b : CrestBucket) (l1 l2 : List CreditLine) :
    cashOfKindInBucket k b (l1 ++ l2) =
      cashOfKindInBucket k b l1 + cashOfKindInBucket k b l2 := by
  simp [cashOfKindInBucket]

theorem cashOfKindInBucket_cons (k : String) (b : CrestBucket) (ln : CreditLine)
    (t : List CreditLine) :
    cashOfKindInBucket k b (ln :: t) =
      (if ln.line_type = k ∧ ln.crest_bucket = b then ln.cash_credited else 0) +
        cashOfKindInBucket k b t := by
  by_cases h : ln.line_type = k ∧ ln.crest_bucket = b <;> simp [cashOfKindInBucket, h]

theorem cashOfKindInBucket_client (b : CrestBucket) (ls : List CreditLine)
    (hcl : ∀ ln ∈ ls, ln.line_type = "CLIENT") :
    cashOfKindInBucket "CLIENT" b ls = sumCashBucket b ls := by
  induction ls with
  | nil => simp [cashOfKindInBucket, sumCashBucket]
  | cons ln t ih =>
    have h1 : ln.line_type = "CLIENT" := hcl ln (List.mem_cons_self ln t)
    have ih2 := ih fun x hx => hcl x (List.mem_cons_of_mem ln hx)
    rw [cashOfKindInBucket_cons, sumCashBucket_cons, ih2]
    by_cases hb : ln.crest_bucket = b
    · rw [if_pos ⟨h1, hb⟩, if_pos hb]
    · rw [if_neg (fun hh => hb hh.2), if_neg hb]

theorem cashOfKindInBucket_house_of_client (b : CrestBucket) (ls : List CreditLine)
    (hcl : ∀ ln ∈ ls, ln.line_type = "CLIENT") :
    cashOfKindInBucket "HOUSE_ROUNDING" b ls = 0 := by
  induction ls with
  | nil => simp [cashOfKindInBucket]
  | cons ln t ih =>
    have h1 : ln.line_type = "CLIENT" := hcl ln (List.mem_cons_self ln t)
    have ih2 := ih fun x hx => hcl x (List.mem_cons_of_mem ln hx)
    rw [cashOfKindInBucket_cons, ih2]
    have hne : ¬(ln.line_type = "HOUSE_ROUNDING" ∧ ln.crest_bucket = b) := by
      intro hh
      rw [h1] at hh
      exact absurd hh.1 (by decide)
    rw [if_neg hne, add_zero]

theorem houseOpt_client_cash (rid i rd pd : String) (row : CrestBucketSnapshot)
    (br : BucketReconResult) (b : CrestBucket) :
    cashOfKindInBucket "CLIENT" b (houseOpt rid i rd pd row br) = 0 := by
  by_cases h0 : br.residual_to_house = 0
  · rw [houseOpt, if_pos h0]
    simp [cashOfKindInBucket]
  · rw [houseOpt, if_neg h0, cashOfKindInBucket_cons]
    have hne : ¬(("HOUSE_ROUNDING" : String) = "CLIENT" ∧ br.crest_bucket = b) := by
      intro hh
      exact absurd hh.1 (by decide)
    rw [if_neg hne]
    simp [cashOfKindInBucket]

theorem houseOpt_house_cash (rid i rd pd : String) (row : CrestBucketSnapshot)
    (br : BucketReconResult) (b : CrestBucket) :
    cashOfKindInBucket "HOUSE_ROUNDING" b (houseOpt rid i rd pd row br) =
      (if br.crest_bucket = b then br.residual_to_house else 0) := by
  by_cases h0 : br.residual_to_house = 0
  · rw [houseOpt, if_pos h0]
    rw [h0]
    simp [cashOfKindInBucket]
  · rw [houseOpt, if_neg h0, cashOfKindInBucket_cons]
    by_cases hb : br.crest_bucket = b
    · rw [if_pos ⟨rfl, hb⟩, if_pos hb]
      simp [cashOfKindInBucket]
    · rw [if_neg (fun hh => hb hh.2), if_neg hb]
      simp [cashOfKindInBucket]

theorem round_half_up_idem (x : ℚ) (p : Int) :
    round_half_up (round_half_up x p) p = round_half_up x p := by
  have hs : (0 : ℚ) < (10 : ℚ) ^ p := zpow_pos (by norm_num) p
  have hsne : ((10 : ℚ) ^ p) ≠ 0 := ne_of_gt hs
  have half : (⌊(1 : ℚ) / 2⌋ : Int) = 0 := by norm_num [Int.floor_eq_zero_iff]
  have key : ∀ n : Int, (⌊((n : ℚ)) + 1 / 2⌋ : Int) = n := by
    intro n
    rw [add_comm, Int.floor_add_int, half, zero_add]
  by_cases hx : x < 0
  · have hval : round_half_up x p =
        -(((⌊(-x) * ((10 : ℚ) ^ p) + 1 / 2⌋ : Int) : ℚ) / ((10 : ℚ) ^ p)) := by
      rw [round_half_up, if_pos hx]
    set m : Int := ⌊(-x) * ((10 : ℚ) ^ p) + 1 / 2⌋ with hm
    have hm0 : 0 ≤ m := by
      rw [hm]
      apply Int.le_floor.mpr
      push_cast
      have : 0 ≤ (-x) * ((10 : ℚ) ^ p) := mul_nonneg (by linarith) (le_of_lt hs)
      linarith
    rw [hval]
    rcases eq_or_lt_of_le hm0 with hmz | hmpos
    · rw [← hmz]
      norm_num [round_half_up, half]
    · have hr : -((m : ℚ) / ((10 : ℚ) ^ p)) < 0 := by
        rw [neg_lt_zero]
        positivity
      rw [round_half_up, if_pos hr, neg_neg, div_mul_cancel₀ _ hsne, key]
  · have hval : round_half_up x p =
        ((⌊x * ((10 : ℚ) ^ p) + 1 / 2⌋ : Int) : ℚ) / ((10 : ℚ) ^ p) := by
      rw [round_half_up, if_neg hx]
    set n : Int := ⌊x * ((10 : ℚ) ^ p) + 1 / 2⌋ with hn
    have hn0 : 0 ≤ n := by
      rw [hn]
      apply Int.le_floor.mpr
      push_cast
      have hx0 : 0 ≤ x := le_of_not_lt hx
      have : 0 ≤ x * ((10 : ℚ) ^ p) := mul_nonneg hx0 (le_of_lt hs)
      linarith
    have hr : ¬((n : ℚ) / ((10 : ℚ) ^ p) < 0) := by
      push_neg
      positivity
    rw [hval, round_half_up, if_neg hr, div_mul_cancel₀ _ hsne, key]

/-- C9: `round_half_up` quantizes with half-up rounding, ties away from
zero preserving sign (0.005 → 0.01, 1.005 → 1.01, 1.015 → 1.02,
−0.005 → −0.01), and is idempotent at every precision. -/
theorem c9_round_half_up_ties_and_idempotent :
    round_half_up (1/200) 2 = 1/100 ∧
    round_half_up (201/200) 2 = 101/100 ∧
    round_half_up (203/200) 2 = 51/50 ∧
    round_half_up (-(1/200)) 2 = -(1/100) ∧
    ∀ (x : ℚ) (p : Int), round_half_up (round_half_up x p) p = round_half_up x p := by
  refine ⟨?_, ?_, ?_, ?_, round_half_up_idem⟩ <;> norm_num [round_half_up]

/-- C5: the account-number derivation is NOT a single function: the
`mapping.py` version (used to validate inbound holdings) concatenates
without a separator, while the `models.py` version (used by
`reconcile_run` for the house suspense account) inserts a hyphen; the
house-style account string is rejected by `validate_internal_holdings`
with BAD_ACCOUNT_NUMBER. -/
theorem c5_account_derivations_diverge :
    Mapping.make_account_number "55555555" 22 = "5555555522" ∧
    Models.make_account_number "55555555" 22 = "55555555-22" ∧
    Mapping.make_account_number "55555555" 22 ≠ Models.make_account_number "55555555" 22 ∧
    validate_internal_holdings [c5Holding] = .error "BAD_ACCOUNT_NUMBER" := by
  refine ⟨by decide, by decide, by decide, by rfl⟩

/-- C6 counterexample: the cash aggregation used by reconciliation does
NOT exclude HOUSE_ROUNDING lines — a single HOUSE_ROUNDING line of cash 5
in ISA yields an ISA total of 5, not 0. -/
theorem c6_counterexample_house_line_counted :
    c6HouseLine.line_type = "HOUSE_ROUNDING" ∧
    (aggregate_cash_by_bucket [c6HouseLine]).get .ISA = 5 ∧ ((5 : ℚ) ≠ 0) := by
  refine ⟨rfl, ?_, by norm_num⟩
  norm_num [aggregate_cash_by_bucket, aggCashGo, c6HouseLine, BucketMap.set, BucketMap.get]

/-- C6 amended: `aggregate_cash_by_bucket` sums `cash_credited` per
bucket over ALL supplied lines regardless of `line_type`, and all three
bucket keys are always present, defaulting to 0.00 (the sum over an empty
filter). -/
theorem c6_cash_aggregation_sums_all_lines (ls : List CreditLine) (b : CrestBucket) :
    (aggregate_cash_by_bucket ls).get b = sumCashBucket b ls :=
  aggregate_cash_get ls b

/-- C7 counterexample: the bucket IS stored on the holding record
(`crest_bucket` field), and the share aggregation used by reconciliation
indexes by that stored field: a holding with `product_code = 22` (derived
bucket ISA) but stored bucket GIA is counted under GIA. -/
theorem c7_counterexample_stored_bucket_diverges :
    c7Holding.product_code = 22 ∧
    c7Holding.crest_bucket = some CrestBucket.GIA ∧
    Mapping.bucket_for_product 22 = .ok CrestBucket.ISA ∧
    aggregate_internal_shares_by_bucket [c7Holding] = .ok ⟨0, 0, 5⟩ ∧
    (⟨0, 0, 5⟩ : BucketMap Int).get .GIA = 5 ∧
    (⟨0, 0, 5⟩ : BucketMap Int).get .ISA = 0 := by
  refine ⟨rfl, rfl, by rfl, by rfl, rfl, rfl⟩

/-- C7 amended: the share aggregation used by reconcile_run indexes its
totals by each holding's *stored* `crest_bucket` field (not by the bucket
derived from `product_code`): whenever it succeeds, each bucket total is
the sum of `shares` over holdings whose stored field equals that bucket. -/
theorem c7_shares_aggregation_uses_stored_bucket (hs : List InternalHolding)
    (m : BucketMap Int) (hok : aggregate_internal_shares_by_bucket hs = .ok m)
    (b : CrestBucket) :
    m.get b = sumSharesBucket b hs :=
  aggregate_shares_ok_get hs m hok b

theorem c7_shares_aggregation_uses_stored_bucket_witness :
    aggregate_internal_shares_by_bucket exHoldings = .ok c7Map ∧
    c7Map.get .ISA = sumSharesBucket .ISA exHoldings := by
  have h : aggregate_internal_shares_by_bucket exHoldings = .ok c7Map := by rfl
  exact ⟨h, c7_shares_aggregation_uses_stored_bucket exHoldings c7Map h .ISA⟩

/-- C10 counterexample: on a snapshot with two distinct isins the
validator raises the tag MULTI_ISIN_CREST, not MULTI_ISIN. -/
theorem c10_counterexample_tag_has_crest_suffix :
    validate_crest_snapshot c10Rows = .error "MULTI_ISIN_CREST" ∧
    validate_crest_snapshot c10Rows ≠ .error "MULTI_ISIN" := by
  have h : validate_crest_snapshot c10Rows = .error "MULTI_ISIN_CREST" := by rfl
  refine ⟨h, ?_⟩
  rw [h]
  intro hh
  exact absurd (Except.error.inj hh) (by decide)

/-- C10 amended: whenever the rows carry more than one distinct isin,
`validate_crest_snapshot` fails with MULTI_ISIN_CREST — it is the first
check, so no other error is raised for such input before it. -/
theorem c10_multi_isin_is_first_check (rows : List CrestBucketSnapshot)
    (hmulti : 1 < ((rows.map fun r => r.isin).dedup).length) :
    validate_crest_snapshot rows = .error "MULTI_ISIN_CREST" := by
  unfold validate_crest_snapshot
  rw [if_pos hmulti]

theorem c10_multi_isin_is_first_check_witness :
    1 < ((c10Rows.map fun r => r.isin).dedup).length ∧
    validate_crest_snapshot c10Rows = .error "MULTI_ISIN_CREST" :=
  ⟨by decide, c10_multi_isin_is_first_check c10Rows (by decide)⟩

theorem bucketStep_res_spec (rid i : String) (b : CrestBucket) (row : CrestBucketSnapshot)
    (s : Int) (c tol : ℚ) :
    (bucketStep rid i b row s c tol).res.residual_to_house =
        (bucketStep rid i b row s c tol).res.crest_cash -
          (bucketStep rid i b row s c tol).res.internal_cash_pre_residual ∧
    ((bucketStep rid i b row s c tol).res.pass_bucket = true ↔
      ((bucketStep rid i b row s c tol).res.internal_shares =
          (bucketStep rid i b row s c tol).res.crest_shares ∧
        |(bucketStep rid i b row s c tol).res.crest_cash -
            (bucketStep rid i b row s c tol).res.internal_cash_pre_residual| ≤ tol)) ∧
    (bucketStep rid i b row s c tol).res.internal_cash_post_residual =
      (if |(bucketStep rid i b row s c tol).res.crest_cash -
              (bucketStep rid i b row s c tol).res.internal_cash_pre_residual| ≤ tol
       then (bucketStep rid i b row s c tol).res.internal_cash_pre_residual +
              ((bucketStep rid i b row s c tol).res.crest_cash -
                (bucketStep rid i b row s c tol).res.internal_cash_pre_residual)
       else (bucketStep rid i b row s c tol).res.internal_cash_pre_residual) :=
  ⟨rfl, bucketStep_res_pass_iff rid i b row s c tol, bucketStep_res_post rid i b row s c tol⟩

/-- C2: in every bucket result reconcile_run reports, the recorded
residual is authoritative cash minus internal cash pre; the bucket passes
iff the internal shares equal the authoritative shares AND the absolute
residual is ≤ the tolerance (inclusive comparison); and internal cash
post equals pre + residual when eligible, else pre unchanged. -/
theorem c2_bucket_pass_criteria (rid i rd pd : String) (hs : List InternalHolding)
    (rows : List CrestBucketSnapshot) (cls : List CreditLine) (tol : ℚ)
    (out : RunReconResult × List CreditLine × List BreakRow)
    (hok : reconcile_run rid i rd pd hs rows cls tol = .ok out)
    (res : BucketReconResult) (hres : res ∈ out.1.bucket_results) :
    res.residual_to_house = res.crest_cash - res.internal_cash_pre_residual ∧
    (res.pass_bucket = true ↔
      (res.internal_shares = res.crest_shares ∧
        |res.crest_cash - res.internal_cash_pre_residual| ≤ tol)) ∧
    res.internal_cash_post_residual =
      (if |res.crest_cash - res.internal_cash_pre_residual| ≤ tol
       then res.internal_cash_pre_residual + (res.crest_cash - res.internal_cash_pre_residual)
       else res.internal_cash_pre_residual) := by
  obtain ⟨rI, rS, rG, ms, hA, hB, hC, hagg, hout⟩ :=
    reconcile_run_ok_elim rid i rd pd hs rows cls tol out hok
  simp only [] at hout
  subst hout
  simp only [List.mem_cons, List.not_mem_nil, or_false] at hres
  rcases hres with h | h | h <;> subst h <;> exact bucketStep_res_spec rid i _ _ _ _ tol

/-- C3: whenever reconcile_run succeeds and reports the run as failed,
the returned final posting list is empty — settlement is all-or-nothing. -/
theorem c3_failed_run_all_or_nothing (rid i rd pd : String) (hs : List InternalHolding)
    (rows : List CrestBucketSnapshot) (cls : List CreditLine) (tol : ℚ)
    (out : RunReconResult × List CreditLine × List BreakRow)
    (hok : reconcile_run rid i rd pd hs rows cls tol = .ok out)
    (hfail : out.1.pass_run = false) :
    out.2.1 = [] := by
  obtain ⟨rI, rS, rG, ms, hA, hB, hC, hagg, hout⟩ :=
    reconcile_run_ok_elim rid i rd pd hs rows cls tol out hok
  simp only [] at hout
  subst hout
  simp only [] at hfail ⊢
  rw [hfail]
  simp

/-- C8: the share aggregation reconcile_run invokes errors with an
uncategorized KeyError exactly when some supplied holding has no stored
`crest_bucket`; consequently, on such holdings reconcile_run itself (with
all three CREST buckets present) raises KeyError rather than a
categorized failure. -/
theorem c8_none_bucket_raises_keyerror (hs : List InternalHolding) :
    (aggregate_internal_shares_by_bucket hs = .error "KeyError" ↔
      ∃ h ∈ hs, h.crest_bucket = none) ∧
    (∀ (rid i rd pd : String) (rows : List CrestBucketSnapshot) (cls : List CreditLine)
       (tol : ℚ) (rI rS rG : CrestBucketSnapshot),
       (crestByBucket rows).isa = some rI →
       (crestByBucket rows).sipp = some rS →
       (crestByBucket rows).gia = some rG →
       (∃ h ∈ hs, h.crest_bucket = none) →
       reconcile_run rid i rd pd hs rows cls tol = .error "KeyError") := by
  refine ⟨aggregate_shares_error_iff hs, ?_⟩
  intro rid i rd pd rows cls tol rI rS rG hA hB hC hnone
  unfold reconcile_run
  rw [hA, hB, hC, (aggregate_shares_error_iff hs).mpr hnone]

theorem c8_none_bucket_raises_keyerror_witness :
    (aggregate_internal_shares_by_bucket [c8Holding] = .error "KeyError" ↔
      ∃ h ∈ [c8Holding], h.crest_bucket = none) ∧
    reconcile_run "R8" "GB1" "2026-01-01" "2026-01-15" [c8Holding] exRows [] (1/100) =
      .error "KeyError" := by
  refine ⟨(c8_none_bucket_raises_keyerror [c8Holding]).1, ?_⟩
  exact (c8_none_bucket_raises_keyerror [c8Holding]).2 "R8" "GB1" "2026-01-01" "2026-01-15"
    exRows [] (1/100) _ _ _ rfl rfl rfl ⟨c8Holding, List.mem_cons_self _ _, rfl⟩

theorem houseOpt_of_bucketStep (rid i rd pd : String) (b : CrestBucket)
    (row : CrestBucketSnapshot) (s : Int) (c tol : ℚ) :
    houseOpt rid i rd pd row (bucketStep rid i b row s c tol).res =
      (if row.cash_credited - c = 0 then []
       else [⟨rid, i, rd, pd, HOUSE_CLIENT, HOUSE_PRODUCT_BY_BUCKET b,
              Models.make_account_number HOUSE_CLIENT (HOUSE_PRODUCT_BY_BUCKET b), b, 0,
              row.dividend_per_share, row.cash_credited - c, "HOUSE_ROUNDING"⟩]) := by
  by_cases h0 : row.cash_credited - c = 0 <;> simp [houseOpt, bucketStep, h0]

/-- C1: on a passed run with CLIENT-kind input lines, for every bucket the
sum of CLIENT cash in that bucket plus the cash of that bucket's
HOUSE_ROUNDING posting (0 if none) over the final posting list equals the
bucket's authoritative CREST cash exactly. -/
theorem c1_exact_tieout_on_pass (rid i rd pd : String) (hs : List InternalHolding)
    (rows : List CrestBucketSnapshot) (cls : List CreditLine) (tol : ℚ)
    (out : RunReconResult × List CreditLine × List BreakRow)
    (hcl : cls.all (fun ln => decide (ln.line_type = "CLIENT")) = true)
    (hok : reconcile_run rid i rd pd hs rows cls tol = .ok out)
    (hpass : out.1.pass_run = true)
    (b : CrestBucket) (row : CrestBucketSnapshot)
    (hrow : (crestByBucket rows).get b = some row) :
    cashOfKindInBucket "CLIENT" b out.2.1 + cashOfKindInBucket "HOUSE_ROUNDING" b out.2.1 =
      row.cash_credited := by
  have hcl2 : ∀ ln ∈ cls, ln.line_type = "CLIENT" := by
    intro ln hln
    have := List.all_eq_true.mp hcl ln hln
    exact of_decide_eq_true this
  obtain ⟨rI, rS, rG, ms, hA, hB, hC, hagg, hout⟩ :=
    reconcile_run_ok_elim rid i rd pd hs rows cls tol out hok
  simp only [] at hout
  subst hout
  simp only [] at hpass ⊢
  rw [hpass]
  simp only [if_true]
  rw [cashOfKindInBucket_append, cashOfKindInBucket_append, cashOfKindInBucket_append,
    cashOfKindInBucket_append, cashOfKindInBucket_append, cashOfKindInBucket_append,
    cashOfKindInBucket_client b cls hcl2, cashOfKindInBucket_house_of_client b cls hcl2,
    houseOpt_client_cash, houseOpt_client_cash, houseOpt_client_cash,
    houseOpt_house_cash, houseOpt_house_cash, houseOpt_house_cash,
    bucketStep_res_crest_bucket, bucketStep_res_crest_bucket, bucketStep_res_crest_bucket,
    bucketStep_res_residual, bucketStep_res_residual, bucketStep_res_residual]
  cases b
  case ISA =>
    have hrw : row = rI := by
      rw [show (crestByBucket rows).get .ISA = (crestByBucket rows).isa from rfl, hA] at hrow
      exact (Option.some.inj hrow).symm
    subst hrw
    simp [aggregate_cash_get]
  case SIPP =>
    have hrw : row = rS := by
      rw [show (crestByBucket rows).get .SIPP = (crestByBucket rows).sipp from rfl, hB] at hrow
      exact (Option.some.inj hrow).symm
    subst hrw
    simp [aggregate_cash_get]
  case GIA =>
    have hrw : row = rG := by
      rw [show (crestByBucket rows).get .GIA = (crestByBucket rows).gia from rfl, hC] at hrow
      exact (Option.some.inj hrow).symm
    subst hrw
    simp [aggregate_cash_get]

/-- C4 (amended): on a passed run the final list is the client lines in
input order followed by, in fixed bucket order ISA, SIPP, GIA, exactly
one HOUSE_ROUNDING line per bucket with nonzero residual, carrying
shares 0, cash = that bucket's residual, the house client constant, the
bucket's designated house product code (22/70/97), the hyphenated house
account string, and — rate copied from that bucket's CREST snapshot row
(not a separately declared run rate). -/
theorem c4_settlement_structure (rid i rd pd : String) (hs : List InternalHolding)
    (rows : List CrestBucketSnapshot) (cls : List CreditLine) (tol : ℚ)
    (out : RunReconResult × List CreditLine × List BreakRow)
    (hok : reconcile_run rid i rd pd hs rows cls tol = .ok out)
    (hpass : out.1.pass_run = true)
    (rI rS rG : CrestBucketSnapshot)
    (hI : (crestByBucket rows).isa = some rI)
    (hS : (crestByBucket rows).sipp = some rS)
    (hG : (crestByBucket rows).gia = some rG) :
    out.2.1 = cls ++
      ((if rI.cash_credited - (aggregate_cash_by_bucket cls).get .ISA = 0 then []
        else [⟨rid, i, rd, pd, "55555555", 22, "55555555-22", .ISA, 0, rI.dividend_per_share,
               rI.cash_credited - (aggregate_cash_by_bucket cls).get .ISA, "HOUSE_ROUNDING"⟩]) ++
       (if rS.cash_credited - (aggregate_cash_by_bucket cls).get .SIPP = 0 then []
        else [⟨rid, i, rd, pd, "55555555", 70, "55555555-70", .SIPP, 0, rS.dividend_per_share,
               rS.cash_credited - (aggregate_cash_by_bucket cls).get .SIPP, "HOUSE_ROUNDING"⟩]) ++
       (if rG.cash_credited - (aggregate_cash_by_bucket cls).get .GIA = 0 then []
        else [⟨rid, i, rd, pd, "55555555", 97, "55555555-97", .GIA, 0, rG.dividend_per_share,
               rG.cash_credited - (aggregate_cash_by_bucket cls).get .GIA, "HOUSE_ROUNDING"⟩])) := by
  obtain ⟨rI2, rS2, rG2, ms, hA, hB, hC, hagg, hout⟩ :=
    reconcile_run_ok_elim rid i rd pd hs rows cls tol out hok
  have eI : rI2 = rI := Option.some.inj (hA.symm.trans hI)
  have eS : rS2 = rS := Option.some.inj (hB.symm.trans hS)
  have eG : rG2 = rG := Option.some.inj (hC.symm.trans hG)
  subst eI eS eG
  simp only [] at hout
  subst hout
  simp only [] at hpass ⊢
  rw [hpass]
  simp only [if_true]
  rw [houseOpt_of_bucketStep, houseOpt_of_bucketStep, houseOpt_of_bucketStep]
  have a1 : Models.make_account_number HOUSE_CLIENT (HOUSE_PRODUCT_BY_BUCKET .ISA) =
      "55555555-22" := by decide
  have a2 : Models.make_account_number HOUSE_CLIENT (HOUSE_PRODUCT_BY_BUCKET .SIPP) =
      "55555555-70" := by decide
  have a3 : Models.make_account_number HOUSE_CLIENT (HOUSE_PRODUCT_BY_BUCKET .GIA) =
      "55555555-97" := by decide
  rw [a1, a2, a3]
  rfl

theorem c1_exact_tieout_on_pass_witness :
    (exLines.all (fun ln => decide (ln.line_type = "CLIENT")) = true) ∧
    reconcile_run "R1" "GB1" "2026-01-01" "2026-01-15" exHoldings exRows exLines (1/100) =
      .ok exOut ∧
    exOut.1.pass_run = true ∧
    (crestByBucket exRows).get .ISA =
      some (⟨"GB1", "2026-01-01", "2026-01-15", .ISA, 100, 1/10, 1001/100⟩ :
        CrestBucketSnapshot) ∧
    cashOfKindInBucket "CLIENT" .ISA exOut.2.1 +
        cashOfKindInBucket "HOUSE_ROUNDING" .ISA exOut.2.1 = 1001/100 := by
  have hcl : exLines.all (fun ln => decide (ln.line_type = "CLIENT")) = true := by decide
  have hok : reconcile_run "R1" "GB1" "2026-01-01" "2026-01-15" exHoldings exRows exLines
      (1/100) = .ok exOut := by
    norm_num [reconcile_run, crestByBucket, List.foldl, BucketMap.set, BucketMap.get,
      aggregate_internal_shares_by_bucket, aggSharesGo, aggregate_cash_by_bucket, aggCashGo,
      bucketStep, houseOpt, exHoldings, exRows, exLines, HOUSE_PRODUCT_BY_BUCKET, HOUSE_CLIENT,
      Models.make_account_number, format02, exOut, junkTriple, Except.toOption, Option.getD,
      abs_le]
  have hpass : exOut.1.pass_run = true := by
    norm_num [reconcile_run, crestByBucket, List.foldl, BucketMap.set, BucketMap.get,
      aggregate_internal_shares_by_bucket, aggSharesGo, aggregate_cash_by_bucket, aggCashGo,
      bucketStep, houseOpt, exHoldings, exRows, exLines, HOUSE_PRODUCT_BY_BUCKET, HOUSE_CLIENT,
      Models.make_account_number, format02, exOut, junkTriple, Except.toOption, Option.getD,
      abs_le]
  have hrow : (crestByBucket exRows).get .ISA =
      some (⟨"GB1", "2026-01-01", "2026-01-15", .ISA, 100, 1/10, 1001/100⟩ :
        CrestBucketSnapshot) := rfl
  exact ⟨hcl, hok, hpass, hrow,
    c1_exact_tieout_on_pass "R1" "GB1" "2026-01-01" "2026-01-15" exHoldings exRows exLines
      (1/100) exOut hcl hok hpass .ISA _ hrow⟩

theorem c2_bucket_pass_criteria_witness :
    reconcile_run "R1" "GB1" "2026-01-01" "2026-01-15" exHoldings exRows exLines (1/100) =
      .ok exOut ∧
    exResISA ∈ exOut.1.bucket_results ∧
    exResISA.crest_cash - exResISA.internal_cash_pre_residual = 1/100 ∧
    (exResISA.pass_bucket = true ↔
      (exResISA.internal_shares = exResISA.crest_shares ∧
        |exResISA.crest_cash - exResISA.internal_cash_pre_residual| ≤ 1/100)) ∧
    exResISA.pass_bucket = true := by
  have hok : reconcile_run "R1" "GB1" "2026-01-01" "2026-01-15" exHoldings exRows exLines
      (1/100) = .ok exOut := by
    norm_num [reconcile_run, crestByBucket, List.foldl, BucketMap.set, BucketMap.get,
      aggregate_internal_shares_by_bucket, aggSharesGo, aggregate_cash_by_bucket, aggCashGo,
      bucketStep, houseOpt, exHoldings, exRows, exLines, HOUSE_PRODUCT_BY_BUCKET, HOUSE_CLIENT,
      Models.make_account_number, format02, exOut, junkTriple, Except.toOption, Option.getD,
      abs_le]
  have hmem : exResISA ∈ exOut.1.bucket_results := by
    norm_num [reconcile_run, crestByBucket, List.foldl, BucketMap.set, BucketMap.get,
      aggregate_internal_shares_by_bucket, aggSharesGo, aggregate_cash_by_bucket, aggCashGo,
      bucketStep, houseOpt, exHoldings, exRows, exLines, HOUSE_PRODUCT_BY_BUCKET, HOUSE_CLIENT,
      Models.make_account_number, format02, exOut, junkTriple, Except.toOption, Option.getD,
      abs_le, exResISA]
  refine ⟨hok, hmem, by norm_num [exResISA], ?_, by norm_num [exResISA]⟩
  exact (c2_bucket_pass_criteria "R1" "GB1" "2026-01-01" "2026-01-15" exHoldings exRows
    exLines (1/100) exOut hok exResISA hmem).2.1

theorem c3_failed_run_all_or_nothing_witness :
    reconcile_run "R2" "GB1" "2026-01-01" "2026-01-15" exHoldings failRows exLines (1/100) =
      .ok exFailOut ∧
    exFailOut.1.pass_run = false ∧
    exFailOut.2.1 = [] := by
  have hok : reconcile_run "R2" "GB1" "2026-01-01" "2026-01-15" exHoldings failRows exLines
      (1/100) = .ok exFailOut := by
    norm_num [reconcile_run, crestByBucket, List.foldl, BucketMap.set, BucketMap.get,
      aggregate_internal_shares_by_bucket, aggSharesGo, aggregate_cash_by_bucket, aggCashGo,
      bucketStep, houseOpt, exHoldings, failRows, exLines, HOUSE_PRODUCT_BY_BUCKET,
      HOUSE_CLIENT, Models.make_account_number, format02, exFailOut, junkTriple,
      Except.toOption, Option.getD, abs_le]
  have hfail : exFailOut.1.pass_run = false := by
    norm_num [reconcile_run, crestByBucket, List.foldl, BucketMap.set, BucketMap.get,
      aggregate_internal_shares_by_bucket, aggSharesGo, aggregate_cash_by_bucket, aggCashGo,
      bucketStep, houseOpt, exHoldings, failRows, exLines, HOUSE_PRODUCT_BY_BUCKET,
      HOUSE_CLIENT, Models.make_account_number, format02, exFailOut, junkTriple,
      Except.toOption, Option.getD, abs_le]
  exact ⟨hok, hfail,
    c3_failed_run_all_or_nothing "R2" "GB1" "2026-01-01" "2026-01-15" exHoldings failRows
      exLines (1/100) exFailOut hok hfail⟩

theorem c4_settlement_structure_witness :
    reconcile_run "R4" "GB4" "2026-01-01" "2026-01-15" c4Holdings c4Rows c4Lines (1/100) =
      .ok c4Out ∧
    c4Out.1.pass_run = true ∧
    c4Out.2.1 = c4Lines ++ [c4HouseLine] := by
  have hok : reconcile_run "R4" "GB4" "2026-01-01" "2026-01-15" c4Holdings c4Rows c4Lines
      (1/100) = .ok c4Out := by
    norm_num [reconcile_run, crestByBucket, List.foldl, BucketMap.set, BucketMap.get,
      aggregate_internal_shares_by_bucket, aggSharesGo, aggregate_cash_by_bucket, aggCashGo,
      bucketStep, houseOpt, c4Holdings, c4Rows, c4Lines, HOUSE_PRODUCT_BY_BUCKET, HOUSE_CLIENT,
      Models.make_account_number, format02, c4Out, junkTriple, Except.toOption, Option.getD,
      abs_le]
  have hpass : c4Out.1.pass_run = true := by
    norm_num [reconcile_run, crestByBucket, List.foldl, BucketMap.set, BucketMap.get,
      aggregate_internal_shares_by_bucket, aggSharesGo, aggregate_cash_by_bucket, aggCashGo,
      bucketStep, houseOpt, c4Holdings, c4Rows, c4Lines, HOUSE_PRODUCT_BY_BUCKET, HOUSE_CLIENT,
      Models.make_account_number, format02, c4Out, junkTriple, Except.toOption, Option.getD,
      abs_le]
  refine ⟨hok, hpass, ?_⟩
  have h := c4_settlement_structure "R4" "GB4" "2026-01-01" "2026-01-15" c4Holdings c4Rows
    c4Lines (1/100) c4Out hok hpass _ _ _ rfl rfl rfl
  rw [h]
  norm_num [aggregate_cash_by_bucket, aggCashGo, c4Lines, BucketMap.get, BucketMap.set,
    c4HouseLine]

/-- C4 counterexample: the client lines are computed from the declared
rate 0.10, the run passes, and the emitted HOUSE_ROUNDING line carries
the CREST snapshot rate 0.20 — not the run's declared rate. -/
theorem c4_counterexample_house_rate_is_crest_rate :
    compute_client_credit_lines c4Holdings "R4" "GB4" "2026-01-01" "2026-01-15" (1/10) =
      .ok c4Lines ∧
    (reconcile_run "R4" "GB4" "2026-01-01" "2026-01-15" c4Holdings c4Rows c4Lines
        (1/100)).map (fun t => t.1.pass_run) = .ok true ∧
    (reconcile_run "R4" "GB4" "2026-01-01" "2026-01-15" c4Holdings c4Rows c4Lines
        (1/100)).map (fun t => t.2.1) = .ok (c4Lines ++ [c4HouseLine]) ∧
    c4HouseLine.line_type = "HOUSE_ROUNDING" ∧
    c4HouseLine.dividend_per_share = 1/5 ∧
    ¬((1/5 : ℚ) = 1/10) := by
  refine ⟨?_, ?_, ?_, rfl, rfl, by norm_num⟩
  · norm_num [compute_client_credit_lines, computeLinesGo, Mapping.bucket_for_product,
      Mapping.PRODUCT_TO_BUCKET, round_half_up, c4Holdings, c4Lines]
  · norm_num [reconcile_run, crestByBucket, List.foldl, BucketMap.set, BucketMap.get,
      aggregate_internal_shares_by_bucket, aggSharesGo, aggregate_cash_by_bucket, aggCashGo,
      bucketStep, houseOpt, c4Holdings, c4Rows, c4Lines, HOUSE_PRODUCT_BY_BUCKET, HOUSE_CLIENT,
      Models.make_account_number, format02, abs_le, Except.map]
  · norm_num [reconcile_run, crestByBucket, List.foldl, BucketMap.set, BucketMap.get,
      aggregate_internal_shares_by_bucket, aggSharesGo, aggregate_cash_by_bucket, aggCashGo,
      bucketStep, houseOpt, c4Holdings, c4Rows, c4Lines, c4HouseLine, HOUSE_PRODUCT_BY_BUCKET,
      HOUSE_CLIENT, Models.make_account_number, format02, abs_le, Except.map]
    decide

end Divrec
